import Mathlib

/-!
Verification of the transaction-signing and broadcast core
(cert_issuer/connectors.py and cert_issuer/signer.py).

External libraries (requests, pycoin, python-bitcoinlib, ethereum, rlp) are
modelled as oracle parameters: a provider call is represented by the result it
would return, an HTTP exchange by a function from requests to responses, and a
cryptographic signing routine by an abstract function argument.  Everything
written in the repository itself is embedded directly.
-/

namespace CertIssuer

/-! ### Broadcast orchestrator
Embedding of BitcoinServiceProviderConnector.broadcast_tx_with_chain
(connectors.py lines 293-333).  A provider is modelled by the result it
produces at each attempt number: either a returned transaction id (possibly
None, which is falsy in Python) or a raised exception.  The embedding also
records a trace of observable events: provider calls and backoff sleeps. -/

/-- connectors.py line 32: MAX_BROADCAST_ATTEMPTS = 3 -/
def MAX_BROADCAST_ATTEMPTS : Nat := 3

/-- connectors.py line 23: BROADCAST_RETRY_INTERVAL = 30 -/
def BROADCAST_RETRY_INTERVAL : Nat := 30

/-- Python exceptions observed by the broadcast loop: an exception raised by a
provider call, or the Exception raised on conflicting tx ids
(connectors.py line 318). -/
inductive PyExc where
  | providerExc (msg : String)
  | conflictExc
deriving DecidableEq

/-- Result of one provider call: a returned tx id (none models Python None,
which is falsy) or a raised exception. -/
inductive PRes where
  | ok (txid : Option String)
  | exc (e : PyExc)
deriving DecidableEq

/-- Observable events of the broadcast loop: a call of provider number
i during attempt number a, and a backoff sleep. -/
inductive BEvent where
  | call (attempt provider : Nat)
  | sleep (interval : Nat)
deriving DecidableEq

/-- Body of the inner provider loop (connectors.py lines 309-323) for one
provider result, threading the final_tx_id and last_exception variables.
The raise on conflicting ids (line 318) happens inside the try block, so it is
caught by the except on line 320: it only updates last_exception. -/
def processProvider (finalTxId : Option String) (lastExc : Option PyExc) :
    PRes → Option String × Option PyExc
  | PRes.exc e => (finalTxId, some e)
  | PRes.ok none => (finalTxId, lastExc)
  | PRes.ok (some t) =>
      match finalTxId with
      | some t0 =>
          if t0 = t then (some t, lastExc)
          else (finalTxId, some PyExc.conflictExc)
      | none => (some t, lastExc)

/-- The inner for-loop over the broadcast-capable providers of one attempt
(connectors.py lines 307-323). -/
def processAttempt : List PRes → Option String → Option PyExc →
    Option String × Option PyExc
  | [], f, l => (f, l)
  | r :: rest, f, l =>
      processAttempt rest (processProvider f l r).1 (processProvider f l r).2

/-- connectors.py lines 324-330: after the provider loop, return final_tx_id if
it is set, otherwise sleep and move to the next attempt. -/
def afterAttempt (n a : Nat) (res : Option String × Option PyExc)
    (next : Option PyExc → List BEvent × Except (Option PyExc) String) :
    List BEvent × Except (Option PyExc) String :=
  match res with
  | (some t, _) => ((List.range n).map (BEvent.call a), Except.ok t)
  | (none, l2) =>
      ((List.range n).map (BEvent.call a) ++
        BEvent.sleep BROADCAST_RETRY_INTERVAL :: (next l2).1,
       (next l2).2)

/-- The attempt loop (connectors.py lines 306-330), with the remaining number
of attempts as the recursion measure; exhausting it raises
BroadcastError(last_exception) (line 333). -/
def broadcastFrom (providers : List (Nat → PRes)) :
    Nat → Nat → Option String → Option PyExc →
    List BEvent × Except (Option PyExc) String
  | _, 0, _, l => ([], Except.error l)
  | a, rem + 1, f, l =>
      afterAttempt providers.length a
        (processAttempt (providers.map (fun p => p a)) f l)
        (fun l2 => broadcastFrom providers (a + 1) rem none l2)

/-- BitcoinServiceProviderConnector.broadcast_tx_with_chain
(connectors.py lines 293-333): final_tx_id and last_exception start as None
and the attempt loop runs for attempts 0, 1, 2. -/
def broadcast_tx_with_chain (providers : List (Nat → PRes)) :
    List BEvent × Except (Option PyExc) String :=
  broadcastFrom providers 0 MAX_BROADCAST_ATTEMPTS none none

/-- The call events of one attempt over n providers. -/
def attemptCalls (a n : Nat) : List BEvent :=
  (List.range n).map (BEvent.call a)

/-- Three providers that all answer within the same attempt, returning the
conflicting tx ids X, Y, X. -/
def c1_providers : List (Nat → PRes) :=
  [fun _ => PRes.ok (some "X"),
   fun _ => PRes.ok (some "Y"),
   fun _ => PRes.ok (some "X")]

/-- Two providers that raise on every attempt. -/
def c2_providers : List (Nat → PRes) :=
  [fun _ => PRes.exc (PyExc.providerExc "timeout A"),
   fun _ => PRes.exc (PyExc.providerExc "timeout B")]

/-! ### Read-only aggregators
Embedding of EthereumServiceProviderConnector.get_balance and
get_address_nonce (connectors.py lines 204-227) and of
BitcoinServiceProviderConnector.spendables_for_address, get_unspent_outputs
and get_balance (connectors.py lines 247-282).  A provider is modelled by the
result its call would produce for the queried address. -/

/-- An ethereum provider as the read loops see it: whether it is a
BitcoindConnector instance, and the outcome of its get_balance and
get_address_nonce calls (external HTTP work absorbed into the outcome). -/
structure EthProvider where
  isBitcoind : Bool
  balanceResult : Except PyExc Int
  nonceResult : Except PyExc Int

/-- EthereumServiceProviderConnector.get_balance (connectors.py lines
204-216): skip BitcoindConnector instances, return the first successful
balance, swallow every exception, and return 0 when no provider succeeds. -/
def eth_get_balance : List EthProvider → Except PyExc Int
  | [] => Except.ok 0
  | p :: rest =>
      if p.isBitcoind then eth_get_balance rest
      else
        match p.balanceResult with
        | Except.ok b => Except.ok b
        | Except.error _ => eth_get_balance rest

/-- EthereumServiceProviderConnector.get_address_nonce (connectors.py lines
218-227): no BitcoindConnector filter here; return the first successful nonce,
swallow every exception, and return 0 when no provider succeeds. -/
def eth_get_address_nonce : List EthProvider → Except PyExc Int
  | [] => Except.ok 0
  | p :: rest =>
      match p.nonceResult with
      | Except.ok nv => Except.ok nv
      | Except.error _ => eth_get_address_nonce rest

/-- pycoin Spendable as built by the connectors (connectors.py line 185). -/
structure Spendable where
  coin_value : Nat
  script : List Nat
  previous_hash : Nat
  previous_index : Nat
deriving DecidableEq

/-- A bitcoin read provider as service_provider_methods exposes it: none when
the provider lacks the spendables_for_address method (it is filtered out),
otherwise the outcome of calling that method. -/
def BtcReadProvider : Type := Option (Except PyExc (List Spendable))

/-- BitcoinServiceProviderConnector.spendables_for_address (connectors.py
lines 247-256): iterate the providers that support the method, return the
first successful list, swallow every exception, and return the empty list when
every provider fails. -/
def spendables_for_address : List BtcReadProvider → Except PyExc (List Spendable)
  | [] => Except.ok []
  | none :: rest => spendables_for_address rest
  | some (Except.ok s) :: _ => Except.ok s
  | some (Except.error _) :: rest => spendables_for_address rest

/-- CPython hash of a non-negative int on a 64-bit platform: reduction modulo
the Mersenne prime 2^61 - 1.  All coin values handled here are non-negative.
This is the key Python computes for hash(x.coin_value) at connectors.py
line 267. -/
def pyHashNat (n : Nat) : Nat := n % (2 ^ 61 - 1)

/-- Stable insertion of a spendable into a list ordered by the Python hash of
the coin value: an element is placed before the first element of
strictly-or-equally larger key, matching the order produced by Python's stable
sorted with key=lambda x: hash(x.coin_value). -/
def insertByHash (x : Spendable) : List Spendable → List Spendable
  | [] => [x]
  | y :: ys =>
      if pyHashNat x.coin_value ≤ pyHashNat y.coin_value then x :: y :: ys
      else y :: insertByHash x ys

/-- Stable sort by the Python hash of the coin value, the order of
sorted(spendables, key=lambda x: hash(x.coin_value)) at connectors.py
line 267. -/
def sortByHash : List Spendable → List Spendable
  | [] => []
  | x :: xs => insertByHash x (sortByHash xs)

/-- BitcoinServiceProviderConnector.get_unspent_outputs (connectors.py lines
258-268): fetch the spendables; a non-empty list is returned sorted with
key=lambda x: hash(x.coin_value); an empty list yields None. -/
def get_unspent_outputs (bps : List BtcReadProvider) :
    Except PyExc (Option (List Spendable)) :=
  match spendables_for_address bps with
  | Except.error e => Except.error e
  | Except.ok s => if s.isEmpty then Except.ok none else Except.ok (some (sortByHash s))

/-- BitcoinServiceProviderConnector.get_balance (connectors.py lines 270-282):
sum of the coin values of the unspent outputs, 0 when there are none. -/
def btc_get_balance (bps : List BtcReadProvider) : Except PyExc Nat :=
  match get_unspent_outputs bps with
  | Except.error e => Except.error e
  | Except.ok none => Except.ok 0
  | Except.ok (some s) =>
      if s.isEmpty then Except.ok 0
      else Except.ok (s.foldr (fun x acc => x.coin_value + acc) 0)

/-- A spendable whose coin value is the Mersenne prime 2^61 - 1, so that its
Python hash is 0. -/
def sBig : Spendable := ⟨2 ^ 61 - 1, [0], 0, 0⟩

/-- A spendable of coin value 1, whose Python hash is 1. -/
def sSmall : Spendable := ⟨1, [0], 1, 0⟩

/-- One read provider returning the two spendables above. -/
def c4_read_providers : List BtcReadProvider :=
  [some (Except.ok [sBig, sSmall])]

/-- Whether a list of spendables is sorted by ascending coin value. -/
def sortedByCoinValue : List Spendable → Bool
  | [] => true
  | [_] => true
  | x :: y :: rest =>
      decide (x.coin_value ≤ y.coin_value) && sortedByCoinValue (y :: rest)

/-- A failing ethereum provider used as a concrete witness input. -/
def ethFailingProvider : EthProvider :=
  ⟨false, Except.error (PyExc.providerExc "http 500"),
   Except.error (PyExc.providerExc "http 500")⟩

/-- Failing bitcoin read providers used as a concrete witness input: one
provider raising, one lacking the capability. -/
def btcFailingProviders : List BtcReadProvider :=
  [some (Except.error (PyExc.providerExc "http 500")), none]

/-! ### Provider registry
Embedding of get_providers_for_chain (connectors.py lines 370-374).  The
statically built connectors dictionary (lines 340-367) and
helpers.to_pycoin_chain (which lives outside these two files) are parameters
of the embedding: the claim quantifies over every possible configuration. -/

/-- The Chain enumeration from cert_schema as used by connectors.py. -/
inductive Chain where
  | bitcoin_mainnet
  | bitcoin_testnet
  | ethereum_mainnet
  | ethereum_ropsten
  | mockchain
deriving DecidableEq

/-- A registry entry: either the local full-node connector
(BitcoindConnector, connectors.py line 158) or a remote provider. -/
inductive RegProvider where
  | bitcoindConnector (netcode : String)
  | remote (name : String)
deriving DecidableEq

/-- Whether a registry entry is the local full-node connector kind. -/
def RegProvider.isLocalNode : RegProvider → Bool
  | RegProvider.bitcoindConnector _ => true
  | RegProvider.remote _ => false

/-- get_providers_for_chain (connectors.py lines 370-374): with bitcoind set,
a fresh single-element list holding a BitcoindConnector for the chain's pycoin
netcode; otherwise the configured remote list for the chain. -/
def get_providers_for_chain (connectors : Chain → List RegProvider)
    (to_pycoin_chain : Chain → String) (chain : Chain) (bitcoind : Bool) :
    List RegProvider :=
  if bitcoind then [RegProvider.bitcoindConnector (to_pycoin_chain chain)]
  else connectors chain

/-! ### Bitcoin signer
Embedding of BitcoinSigner.sign_transaction (signer.py lines 104-113).  The
pycoin signing machinery (wif_to_secret_exponent, build_hash160_lookup and
Tx.sign) is external and is absorbed into an abstract signing routine
parameter mapping the transaction to its post-signing state. -/

/-- A transaction input as the post-signing check sees it: its script bytes
(the unlocking script). -/
structure TxIn where
  script : List Nat
deriving DecidableEq

/-- A pycoin bitcoin transaction as the post-signing check sees it: its list
of inputs. -/
structure BtcTx where
  txs_in : List TxIn
deriving DecidableEq

/-- Errors raised by the signer module (cert_issuer.errors). -/
inductive SignerError where
  | unableToSignTx (msg : String)
deriving DecidableEq

/-- The post-signing loop of signer.py lines 109-112: raise
UnableToSignTxError at the first input whose script is empty. -/
def checkInputsSigned : List TxIn → Except SignerError Unit
  | [] => Except.ok ()
  | i :: rest =>
      if i.script.length = 0 then
        Except.error (SignerError.unableToSignTx "Unable to sign transaction")
      else checkInputsSigned rest

/-- BitcoinSigner.sign_transaction (signer.py lines 104-113): run the
underlying signing routine, then verify every input carries a non-empty
script; return the signed transaction only when the check passes. -/
def btc_sign_transaction (signRoutine : BtcTx → BtcTx) (tx : BtcTx) :
    Except SignerError BtcTx :=
  match checkInputsSigned (signRoutine tx).txs_in with
  | Except.error e => Except.error e
  | Except.ok _ => Except.ok (signRoutine tx)

/-- A transaction whose only input is left with an empty script. -/
def txUnsigned : BtcTx := ⟨[⟨[]⟩]⟩

/-- A transaction whose only input carries a non-empty script. -/
def txSigned : BtcTx := ⟨[⟨[1, 2, 3]⟩]⟩

/-! ### Ethereum signer
Embedding of EthereumSigner (signer.py lines 115-141).  The cert_schema chain
object is represented by its external_display_value string; the external
ethereum.transactions.Transaction.sign, rlp.encode and encode_hex calls are
absorbed into an abstract signing function parameter whose last argument is
the netcode handed over by sign_transaction. -/

/-- A cert_schema chain as EthereumSigner reads it. -/
structure EthChain where
  external_display_value : String
deriving DecidableEq

/-- EthereumSigner state after construction. -/
structure EthereumSigner where
  ethereum_chain : EthChain
  netcode : Option Nat
deriving DecidableEq

/-- EthereumSigner.__init__ (signer.py lines 116-124): netcode 1 for
ethereumMainnet, 3 for ethereumRopsten, None otherwise. -/
def EthereumSigner.init (ethereum_chain : EthChain) : EthereumSigner :=
  ⟨ethereum_chain,
    if ethereum_chain.external_display_value = "ethereumMainnet" then some 1
    else if ethereum_chain.external_display_value = "ethereumRopsten" then some 3
    else none⟩

/-- An ethereum transaction object, opaque to this core. -/
structure EthTx where
  raw : Nat
deriving DecidableEq

/-- The argument of EthereumSigner.sign_transaction: either an instance of
ethereum.transactions.Transaction or some other object. -/
inductive EthTxInput where
  | transaction (t : EthTx)
  | nonTransaction
deriving DecidableEq

/-- Outcome of EthereumSigner.sign_transaction: the hex-encoded signed
transaction, the error dictionary built on an internal signing failure
(signer.py line 139), or the UnableToSignTxError raised on a non-transaction
input (signer.py line 141). -/
inductive EthSignOutcome where
  | hexTx (bytes : List Nat)
  | errorObj (message : String)
  | raisedUnableToSign
deriving DecidableEq

/-- EthereumSigner.sign_transaction (signer.py lines 130-141): a transaction
input is signed by the external routine with the signer's netcode as the
chain-id argument; an internal exception becomes an error object; any other
input raises UnableToSignTxError. -/
def eth_sign_transaction
    (signFn : EthTx → String → Option Nat → Except String (List Nat))
    (signer : EthereumSigner) (wif : String) : EthTxInput → EthSignOutcome
  | EthTxInput.nonTransaction => EthSignOutcome.raisedUnableToSign
  | EthTxInput.transaction t =>
      match signFn t wif signer.netcode with
      | Except.ok raw => EthSignOutcome.hexTx raw
      | Except.error m => EthSignOutcome.errorObj m

/-- A concrete external signing routine that depends only on whether the
chain id is 1. -/
def c7SignFnA : EthTx → String → Option Nat → Except String (List Nat) :=
  fun t _ n => if n = some 1 then Except.ok [t.raw] else Except.ok []

/-- A second routine agreeing with the first at chain id 1 and differing
everywhere else. -/
def c7SignFnB : EthTx → String → Option Nat → Except String (List Nat) :=
  fun t _ n => if n = some 1 then Except.ok [t.raw] else Except.ok [7]

/-! ### Secret manager and scoped signing session
Embedding of FileSecretManager (signer.py lines 163-187) and
FinalizableSigner (signer.py lines 190-201).  The check_internet_off and
check_internet_on safety loops block on external network and USB state but do
not change the manager, so they are modelled as no-ops on its state; reading
the key file (import_key) is an external effect modelled by a function from
the secret path to the key text. -/

/-- FileSecretManager state: the held secret and its construction-time
configuration. -/
structure FileSecretManagerState where
  wif : Option String
  path_to_secret : String
  safe_mode : Bool
deriving DecidableEq

/-- FileSecretManager.start (signer.py lines 170-178): after the safety
protocol, load the secret from its file into self.wif. -/
def fsm_start (read_key : String → String) (s : FileSecretManagerState) :
    FileSecretManagerState :=
  ⟨some (read_key s.path_to_secret), s.path_to_secret, s.safe_mode⟩

/-- FileSecretManager.stop (signer.py lines 180-187): clear self.wif, then
run the safety protocol. -/
def fsm_stop (s : FileSecretManagerState) : FileSecretManagerState :=
  ⟨none, s.path_to_secret, s.safe_mode⟩

/-- Observable events of a scoped signing session. -/
inductive ScopeEvent where
  | started
  | bodyStep (n : Nat)
  | stopped
deriving DecidableEq

/-- FinalizableSigner (signer.py lines 190-201) combined with the semantics
of the Python with-statement: enter invokes start on the secret manager and
hands it to the body; exit invokes stop on every exit path, both when the
body completes and when it raises, and a raised exception then propagates. -/
def finalizable_signer_run (read_key : String → String)
    (body : FileSecretManagerState →
      FileSecretManagerState × List ScopeEvent × Except PyExc Nat)
    (s0 : FileSecretManagerState) :
    FileSecretManagerState × List ScopeEvent × Except PyExc Nat :=
  match body (fsm_start read_key s0) with
  | (s2, evs, Except.ok a) =>
      (fsm_stop s2, ScopeEvent.started :: (evs ++ [ScopeEvent.stopped]),
       Except.ok a)
  | (s2, evs, Except.error e) =>
      (fsm_stop s2, ScopeEvent.started :: (evs ++ [ScopeEvent.stopped]),
       Except.error e)

/-! ### Signature verification
Embedding of verify_message and verify_signature (signer.py lines 204-243).
The external VerifyMessage primitive of python-bitcoinlib is an abstract
boolean-valued parameter; the signed certificate document is represented by
its parsed signature field. -/

/-- Verification errors raised by the signer module. -/
inductive VerifyError where
  | unverifiedSignature (msg : String)
deriving DecidableEq

/-- The parsed signed-certificate document: its signature field. -/
structure SignedCert where
  signature : String
deriving DecidableEq

/-- verify_message (signer.py lines 204-214): delegate to the external
VerifyMessage primitive over the address, the message and the signature. -/
def verify_message (vm : String → String → String → Bool)
    (address message signature : String) : Bool :=
  vm address message signature

/-- verify_signature (signer.py lines 217-243): verify the document's
signature over the uid against the issuing address; raise
UnverifiedSignatureError when the check fails, return nothing on success. -/
def verify_signature (vm : String → String → String → Bool) (uid : String)
    (cert : SignedCert) (issuing_address : String) : Except VerifyError Unit :=
  if verify_message vm issuing_address uid cert.signature then Except.ok ()
  else
    Except.error (VerifyError.unverifiedSignature
      ("There was a problem with the signature for certificate uid=" ++ uid))

/-- An external verifier that rejects everything. -/
def vmReject : String → String → String → Bool := fun _ _ _ => false

/-- An external verifier that accepts everything. -/
def vmAccept : String → String → String → Bool := fun _ _ _ => true

/-! ### Etherscan connector
Embedding of EtherscanBroadcaster (connectors.py lines 52-105).  The HTTP
layer is an oracle from requests to responses; Python int parsing of the
JSON result field is an abstract parameter, since int() may raise.  The
statements of the form api_token truthy-guarding a formatted string
(connectors.py lines 60-61, 78-79 and 95-96) evaluate the string and discard
it, which the embedding renders as an unused binding. -/

/-- An HTTP request as issued by the Etherscan connector. -/
structure HttpRequest where
  isPost : Bool
  url : String
  formData : List (String × String)
deriving DecidableEq

/-- An HTTP response as the Etherscan connector reads it: the status code,
the result field of the JSON body (None when absent) and the raw text. -/
structure HttpResponse where
  status_code : Nat
  result : Option String
  text : String
deriving DecidableEq

/-- Errors raised by the Etherscan connector paths. -/
inductive EthApiError where
  | broadcastError (msg : String)
  | broadcastErrorWithText (fmt msg : String)
  | pythonError (msg : String)
deriving DecidableEq

/-- The formatted apikey fragment built and discarded by the connector. -/
def py_format_apikey (api_token : String) : String :=
  "&apikey=" ++ api_token

/-- URL built by EtherscanBroadcaster.broadcast_tx (connectors.py lines
59-61): the apikey fragment of line 61 is an expression statement whose value
is discarded, so the token never reaches the URL. -/
def etherscan_broadcast_url (base_url api_token : String) : String :=
  let broadcast_url := base_url ++ "?module=proxy&action=eth_sendRawTransaction"
  let _discarded := if api_token ≠ "" then py_format_apikey api_token else ""
  broadcast_url

/-- The POST request of EtherscanBroadcaster.broadcast_tx
(connectors.py line 62). -/
def etherscan_broadcast_tx_request (base_url tx_hex api_token : String) :
    HttpRequest :=
  ⟨true, etherscan_broadcast_url base_url api_token, [("hex", tx_hex)]⟩

/-- EtherscanBroadcaster.broadcast_tx (connectors.py lines 56-68). -/
def etherscan_broadcast_tx (oracle : HttpRequest → HttpResponse)
    (base_url tx_hex api_token : String) : Except EthApiError (Option String) :=
  let response := oracle (etherscan_broadcast_tx_request base_url tx_hex api_token)
  if response.status_code = 200 then Except.ok response.result
  else Except.error (EthApiError.broadcastError response.text)

/-- URL built by EtherscanBroadcaster.get_balance (connectors.py lines
75-79): again the apikey fragment is evaluated and discarded. -/
def etherscan_balance_url (base_url address api_token : String) : String :=
  let u := base_url ++ "?module=account&action=balance"
  let u := u ++ "&address=" ++ address
  let u := u ++ "&tag=latest"
  let _discarded := if api_token ≠ "" then py_format_apikey api_token else ""
  u

/-- The GET request of EtherscanBroadcaster.get_balance
(connectors.py line 80). -/
def etherscan_balance_request (base_url address api_token : String) :
    HttpRequest :=
  ⟨false, etherscan_balance_url base_url address api_token, []⟩

/-- EtherscanBroadcaster.get_balance (connectors.py lines 70-85): on a 200
response parse the result field with int(), which may itself raise;
otherwise raise BroadcastError over the response text. -/
def etherscan_get_balance (oracle : HttpRequest → HttpResponse)
    (pyInt : Option String → Except String Int)
    (base_url address api_token : String) : Except EthApiError Int :=
  let response := oracle (etherscan_balance_request base_url address api_token)
  if response.status_code = 200 then
    match pyInt response.result with
    | Except.ok b => Except.ok b
    | Except.error m => Except.error (EthApiError.pythonError m)
  else Except.error (EthApiError.broadcastError response.text)

/-- URL built by EtherscanBroadcaster.get_address_nonce (connectors.py lines
92-96): again the apikey fragment is evaluated and discarded. -/
def etherscan_nonce_url (base_url address api_token : String) : String :=
  let u := base_url ++ "?module=proxy&action=eth_getTransactionCount"
  let u := u ++ "&address=" ++ address
  let u := u ++ "&tag=latest"
  let _discarded := if api_token ≠ "" then py_format_apikey api_token else ""
  u

/-- The GET request of EtherscanBroadcaster.get_address_nonce
(connectors.py line 97). -/
def etherscan_nonce_request (base_url address api_token : String) :
    HttpRequest :=
  ⟨false, etherscan_nonce_url base_url address api_token, []⟩

/-- EtherscanBroadcaster.get_address_nonce (connectors.py lines 87-105): on a
200 response parse the result field with int(result, 0); otherwise raise
BroadcastError with a format string and the response text. -/
def etherscan_get_address_nonce (oracle : HttpRequest → HttpResponse)
    (pyIntBase0 : Option String → Except String Int)
    (base_url address api_token : String) : Except EthApiError Int :=
  let response := oracle (etherscan_nonce_request base_url address api_token)
  if response.status_code = 200 then
    match pyIntBase0 response.result with
    | Except.ok n => Except.ok n
    | Except.error m => Except.error (EthApiError.pythonError m)
  else
    Except.error (EthApiError.broadcastErrorWithText
      "Error checking the nonce through the Etherscan API. Error msg: %s"
      response.text)

end CertIssuer

namespace CertIssuer

/-- When every result of an attempt is a raised exception, the inner provider
loop leaves final_tx_id unchanged and ends with last_exception holding the
exception of the last provider in the list. -/
theorem processAttempt_allExc (rs : List PRes) (hne : rs ≠ [])
    (hex : ∀ r ∈ rs, ∃ e, r = PRes.exc e) :
    ∀ f l, ∃ e, rs.getLast? = some (PRes.exc e) ∧
      processAttempt rs f l = (f, some e) := by
  induction rs with
  | nil => exact absurd rfl hne
  | cons r rest ih =>
    intro f l
    obtain ⟨e, he⟩ := hex r (List.mem_cons_self r rest)
    subst he
    cases rest with
    | nil => exact ⟨e, rfl, rfl⟩
    | cons r2 rest2 =>
      have hex2 : ∀ x ∈ r2 :: rest2, ∃ e, x = PRes.exc e :=
        fun x hx => hex x (List.mem_cons_of_mem _ hx)
      obtain ⟨e2, hlast, hproc⟩ := ih (by simp) hex2 f (some e)
      refine ⟨e2, ?_, ?_⟩
      · rw [List.getLast?_cons_cons]
        exact hlast
      · simpa [processAttempt, processProvider] using hproc

/-- C1: the spec says that when two providers return distinct non-null ids in
one attempt, broadcast raises a fatal error immediately with no further
provider calls.  The code does not: the conflict Exception raised at
connectors.py line 318 is inside the try block of line 309, so the except of
line 320 catches it; the loop then calls the remaining provider and the
function returns the first id X as a success, with no error raised. -/
theorem c1_conflicting_ids_are_swallowed :
    broadcast_tx_with_chain c1_providers =
      ([BEvent.call 0 0, BEvent.call 0 1, BEvent.call 0 2], Except.ok "X") := by
  rfl

/-- C2: when every provider raises on every attempt, broadcast performs exactly
3 attempts (call events tagged with attempts 0, 1 and 2 only), sleeps the fixed
30-unit interval between consecutive attempts, and then raises a broadcast
error wrapping the most recently observed per-provider exception, namely the
exception of the last provider of the last attempt. -/
theorem c2_broadcast_exhausts_three_attempts (providers : List (Nat → PRes))
    (hne : providers ≠ [])
    (hexc : ∀ p ∈ providers, ∀ a, ∃ e, p a = PRes.exc e) :
    ∃ e, (providers.map (fun p => p 2)).getLast? = some (PRes.exc e) ∧
      broadcast_tx_with_chain providers =
        (attemptCalls 0 providers.length ++ BEvent.sleep 30 ::
          (attemptCalls 1 providers.length ++ BEvent.sleep 30 ::
            (attemptCalls 2 providers.length ++ [BEvent.sleep 30])),
         Except.error (some e)) := by
  have hmapne : ∀ a : Nat, providers.map (fun p => p a) ≠ [] := by
    intro a h
    exact hne (List.map_eq_nil_iff.mp h)
  have hall : ∀ a : Nat, ∀ r ∈ providers.map (fun p => p a),
      ∃ e, r = PRes.exc e := by
    intro a r hr
    obtain ⟨p, hp, rfl⟩ := List.mem_map.mp hr
    exact hexc p hp a
  obtain ⟨e0, hl0, h0⟩ := processAttempt_allExc _ (hmapne 0) (hall 0) none none
  obtain ⟨e1, hl1, h1⟩ :=
    processAttempt_allExc _ (hmapne 1) (hall 1) none (some e0)
  obtain ⟨e2, hl2, h2⟩ :=
    processAttempt_allExc _ (hmapne 2) (hall 2) none (some e1)
  refine ⟨e2, hl2, ?_⟩
  have hstep : broadcast_tx_with_chain providers =
      afterAttempt providers.length 0
        (processAttempt (providers.map (fun p => p 0)) none none)
        (fun l2 =>
          afterAttempt providers.length 1
            (processAttempt (providers.map (fun p => p 1)) none l2)
            (fun l3 =>
              afterAttempt providers.length 2
                (processAttempt (providers.map (fun p => p 2)) none l3)
                (fun l4 => ([], Except.error l4)))) := rfl
  rw [hstep, h0]
  simp only [afterAttempt]
  rw [h1]
  simp only [afterAttempt]
  rw [h2]
  simp only [afterAttempt]
  rfl

/-- Witness for C2 at two concrete providers that always raise. -/
theorem c2_witness :
    ∃ e, (c2_providers.map (fun p => p 2)).getLast? = some (PRes.exc e) ∧
      broadcast_tx_with_chain c2_providers =
        (attemptCalls 0 c2_providers.length ++ BEvent.sleep 30 ::
          (attemptCalls 1 c2_providers.length ++ BEvent.sleep 30 ::
            (attemptCalls 2 c2_providers.length ++ [BEvent.sleep 30])),
         Except.error (some e)) :=
  c2_broadcast_exhausts_three_attempts c2_providers
    (by simp [c2_providers])
    (by
      intro p hp a
      simp only [c2_providers, List.mem_cons, List.not_mem_nil, or_false] at hp
      rcases hp with h | h <;> subst h
      · exact ⟨PyExc.providerExc "timeout A", rfl⟩
      · exact ⟨PyExc.providerExc "timeout B", rfl⟩)

/-- When every provider fails its balance call, the ethereum balance loop
falls through to its 0 sentinel. -/
theorem eth_get_balance_all_fail (eps : List EthProvider)
    (hb : ∀ p ∈ eps, ∃ m, p.balanceResult = Except.error m) :
    eth_get_balance eps = Except.ok 0 := by
  induction eps with
  | nil => rfl
  | cons p rest ih =>
    have hrest : eth_get_balance rest = Except.ok 0 :=
      ih (fun p hp => hb p (List.mem_cons_of_mem _ hp))
    obtain ⟨m, hm⟩ := hb p (List.mem_cons_self p rest)
    by_cases hbit : p.isBitcoind <;>
      simp [eth_get_balance, hbit, hm, hrest]

/-- When every provider fails its nonce call, the ethereum nonce loop falls
through to its 0 sentinel. -/
theorem eth_get_address_nonce_all_fail (eps : List EthProvider)
    (hn : ∀ p ∈ eps, ∃ m, p.nonceResult = Except.error m) :
    eth_get_address_nonce eps = Except.ok 0 := by
  induction eps with
  | nil => rfl
  | cons p rest ih =>
    have hrest : eth_get_address_nonce rest = Except.ok 0 :=
      ih (fun p hp => hn p (List.mem_cons_of_mem _ hp))
    obtain ⟨m, hm⟩ := hn p (List.mem_cons_self p rest)
    simp [eth_get_address_nonce, hm, hrest]

/-- When every capable provider fails its spendables call, the bitcoin
spendables loop falls through to its empty-list sentinel. -/
theorem spendables_for_address_all_fail (bps : List BtcReadProvider)
    (hs : ∀ q ∈ bps, ∀ r, q = some r → ∃ m, r = Except.error m) :
    spendables_for_address bps = Except.ok [] := by
  induction bps with
  | nil => rfl
  | cons q rest ih =>
    have hrest : spendables_for_address rest = Except.ok [] :=
      ih (fun q hq r hr => hs q (List.mem_cons_of_mem _ hq) r hr)
    cases q with
    | none => simpa [spendables_for_address] using hrest
    | some r =>
      obtain ⟨m, hm⟩ := hs (some r) (List.mem_cons_self _ _) r rfl
      subst hm
      simpa [spendables_for_address] using hrest

/-- C3: every read-only query (ethereum balance, ethereum nonce, bitcoin
spendables, unspent outputs, bitcoin balance) returns its zero or empty
sentinel, without raising, when every provider in the registry list fails. -/
theorem c3_read_paths_return_sentinels (eps : List EthProvider)
    (bps : List BtcReadProvider)
    (hb : ∀ p ∈ eps, ∃ m, p.balanceResult = Except.error m)
    (hn : ∀ p ∈ eps, ∃ m, p.nonceResult = Except.error m)
    (hs : ∀ q ∈ bps, ∀ r, q = some r → ∃ m, r = Except.error m) :
    eth_get_balance eps = Except.ok 0 ∧
    eth_get_address_nonce eps = Except.ok 0 ∧
    spendables_for_address bps = Except.ok [] ∧
    get_unspent_outputs bps = Except.ok none ∧
    btc_get_balance bps = Except.ok 0 := by
  have hsp := spendables_for_address_all_fail bps hs
  refine ⟨eth_get_balance_all_fail eps hb,
    eth_get_address_nonce_all_fail eps hn, hsp, ?_, ?_⟩
  · simp [get_unspent_outputs, hsp]
  · simp [btc_get_balance, get_unspent_outputs, hsp]

/-- Witness for C3 at one failing ethereum provider and two failing or
capability-lacking bitcoin providers. -/
theorem c3_witness :
    eth_get_balance [ethFailingProvider] = Except.ok 0 ∧
    eth_get_address_nonce [ethFailingProvider] = Except.ok 0 ∧
    spendables_for_address btcFailingProviders = Except.ok [] ∧
    get_unspent_outputs btcFailingProviders = Except.ok none ∧
    btc_get_balance btcFailingProviders = Except.ok 0 :=
  c3_read_paths_return_sentinels [ethFailingProvider] btcFailingProviders
    (by
      intro p hp
      simp only [List.mem_cons, List.not_mem_nil, or_false] at hp
      subst hp
      exact ⟨PyExc.providerExc "http 500", rfl⟩)
    (by
      intro p hp
      simp only [List.mem_cons, List.not_mem_nil, or_false] at hp
      subst hp
      exact ⟨PyExc.providerExc "http 500", rfl⟩)
    (by
      intro q hq r hr
      simp only [btcFailingProviders, List.mem_cons, List.not_mem_nil,
        or_false] at hq
      rcases hq with h | h <;> subst h
      · rw [Option.some_inj] at hr
        subst hr
        exact ⟨PyExc.providerExc "http 500", rfl⟩
      · exact absurd hr (by simp))

/-- C4: the spec says a non-empty unspent-output lookup result is sorted by
ascending coin value; the code sorts by the Python hash of the value
(connectors.py line 267).  At coin values 2^61 - 1 and 1 the hashes are 0 and
1, so the lookup returns the values in the order 2^61 - 1, 1, which is not
ascending by coin value. -/
theorem c4_hash_sort_is_not_value_sort :
    get_unspent_outputs c4_read_providers = Except.ok (some [sBig, sSmall]) ∧
    sortedByCoinValue [sBig, sSmall] = false := by
  constructor
  · rfl
  · decide

/-- C5: for every configured registry, every pycoin netcode mapping and every
chain, querying the registry with the local-node flag set returns exactly one
provider, of the local full-node connector kind, regardless of the remote
list. -/
theorem c5_local_node_bypasses_remotes (connectors : Chain → List RegProvider)
    (to_pycoin_chain : Chain → String) (chain : Chain) :
    get_providers_for_chain connectors to_pycoin_chain chain true =
      [RegProvider.bitcoindConnector (to_pycoin_chain chain)] ∧
    (get_providers_for_chain connectors to_pycoin_chain chain true).length = 1 ∧
    (get_providers_for_chain connectors to_pycoin_chain chain true).all
      RegProvider.isLocalNode = true :=
  ⟨rfl, rfl, rfl⟩

/-- The post-signing input check raises as soon as some input carries an
empty script. -/
theorem checkInputsSigned_error_of_empty (ins : List TxIn)
    (h : ∃ i ∈ ins, i.script = []) :
    checkInputsSigned ins =
      Except.error (SignerError.unableToSignTx "Unable to sign transaction") := by
  induction ins with
  | nil =>
    obtain ⟨i, hi, _⟩ := h
    exact absurd hi (List.not_mem_nil i)
  | cons i rest ih =>
    obtain ⟨j, hj, hjs⟩ := h
    rcases List.mem_cons.mp hj with hj | hj
    · subst hj
      simp [checkInputsSigned, List.length_eq_zero.mpr hjs]
    · by_cases hlen : i.script.length = 0
      · simp [checkInputsSigned, hlen]
      · simp [checkInputsSigned, hlen]
        exact ih ⟨j, hj, hjs⟩

/-- The post-signing input check passes when every input carries a non-empty
script. -/
theorem checkInputsSigned_ok_of_nonempty (ins : List TxIn)
    (h : ∀ i ∈ ins, i.script ≠ []) :
    checkInputsSigned ins = Except.ok () := by
  induction ins with
  | nil => rfl
  | cons i rest ih =>
    have hi : i.script.length ≠ 0 := by
      intro hlen
      exact h i (List.mem_cons_self i rest) (List.length_eq_zero.mp hlen)
    simp [checkInputsSigned, hi]
    exact ih (fun j hj => h j (List.mem_cons_of_mem _ hj))

/-- C6: when the underlying signing routine leaves some input of a
bitcoin-like transaction with an empty unlocking script, sign_transaction
raises UnableToSignTxError and does not return the partially signed
transaction; when every input carries a non-empty script, the signed
transaction is returned. -/
theorem c6_partial_signing_rejected (signRoutine : BtcTx → BtcTx)
    (tx : BtcTx) :
    ((∃ i ∈ (signRoutine tx).txs_in, i.script = []) →
      btc_sign_transaction signRoutine tx =
        Except.error (SignerError.unableToSignTx "Unable to sign transaction")) ∧
    ((∀ i ∈ (signRoutine tx).txs_in, i.script ≠ []) →
      btc_sign_transaction signRoutine tx = Except.ok (signRoutine tx)) := by
  constructor
  · intro h
    simp [btc_sign_transaction, checkInputsSigned_error_of_empty _ h]
  · intro h
    simp [btc_sign_transaction, checkInputsSigned_ok_of_nonempty _ h]

/-- Witness for C6: the identity signing routine on a transaction with an
unsigned input and on a transaction with a signed input. -/
theorem c6_witness :
    btc_sign_transaction id txUnsigned =
      Except.error (SignerError.unableToSignTx "Unable to sign transaction") ∧
    btc_sign_transaction id txSigned = Except.ok txSigned :=
  ⟨(c6_partial_signing_rejected id txUnsigned).1 (by decide),
   (c6_partial_signing_rejected id txSigned).2 (by decide)⟩

/-- C7: the ethereum signer binds netcode 1 when constructed for
ethereumMainnet, 3 for ethereumRopsten and none otherwise, and
sign_transaction feeds exactly this netcode into the external signature
computation: two signing routines agreeing at the bound netcode produce
identical sign_transaction outcomes. -/
theorem c7_netcode_bound_into_signature (c : EthChain) :
    ((c.external_display_value = "ethereumMainnet" →
        (EthereumSigner.init c).netcode = some 1) ∧
     (c.external_display_value = "ethereumRopsten" →
        (EthereumSigner.init c).netcode = some 3) ∧
     (c.external_display_value ≠ "ethereumMainnet" →
      c.external_display_value ≠ "ethereumRopsten" →
        (EthereumSigner.init c).netcode = none)) ∧
    (∀ f g : EthTx → String → Option Nat → Except String (List Nat),
      ∀ wif inp,
      (∀ t w, f t w (EthereumSigner.init c).netcode =
        g t w (EthereumSigner.init c).netcode) →
      eth_sign_transaction f (EthereumSigner.init c) wif inp =
        eth_sign_transaction g (EthereumSigner.init c) wif inp) := by
  refine ⟨⟨?_, ?_, ?_⟩, ?_⟩
  · intro h
    simp [EthereumSigner.init, h]
  · intro h
    simp [EthereumSigner.init, h]
  · intro h1 h2
    simp [EthereumSigner.init, h1, h2]
  · intro f g wif inp hagree
    cases inp with
    | nonTransaction => rfl
    | transaction t =>
      simp only [eth_sign_transaction, hagree t wif]

/-- Witness for C7 at the mainnet chain and two signing routines that agree
at chain id 1. -/
theorem c7_witness :
    (EthereumSigner.init ⟨"ethereumMainnet"⟩).netcode = some 1 ∧
    eth_sign_transaction c7SignFnA (EthereumSigner.init ⟨"ethereumMainnet"⟩)
        "ab" (EthTxInput.transaction ⟨5⟩) =
      eth_sign_transaction c7SignFnB (EthereumSigner.init ⟨"ethereumMainnet"⟩)
        "ab" (EthTxInput.transaction ⟨5⟩) :=
  ⟨(c7_netcode_bound_into_signature ⟨"ethereumMainnet"⟩).1.1 rfl,
   (c7_netcode_bound_into_signature ⟨"ethereumMainnet"⟩).2 c7SignFnA c7SignFnB
     "ab" (EthTxInput.transaction ⟨5⟩) (by intro t w; rfl)⟩

/-- C8: for every scoped signing session, start runs on the secret manager
before the enclosed body (the body observes the loaded secret), stop runs on
every exit path so the in-memory secret is cleared after the scope closes,
and the body's outcome, normal or exceptional, is passed through. -/
theorem c8_scoped_session_bounds_secret (read_key : String → String)
    (body : FileSecretManagerState →
      FileSecretManagerState × List ScopeEvent × Except PyExc Nat)
    (s0 : FileSecretManagerState) :
    (finalizable_signer_run read_key body s0).1.wif = none ∧
    (fsm_start read_key s0).wif = some (read_key s0.path_to_secret) ∧
    (finalizable_signer_run read_key body s0).2.1.head? =
      some ScopeEvent.started ∧
    (finalizable_signer_run read_key body s0).2.1.getLast? =
      some ScopeEvent.stopped ∧
    (finalizable_signer_run read_key body s0).2.2 =
      (body (fsm_start read_key s0)).2.2 := by
  rcases hb : body (fsm_start read_key s0) with ⟨s2, evs, r⟩
  have hcat : ∀ ev : ScopeEvent, ∀ l : List ScopeEvent,
      (ev :: (l ++ [ScopeEvent.stopped])).getLast? = some ScopeEvent.stopped := by
    intro ev l
    rw [show ev :: (l ++ [ScopeEvent.stopped]) =
      (ev :: l) ++ [ScopeEvent.stopped] from rfl]
    exact List.getLast?_concat _
  cases r with
  | ok a =>
    refine ⟨?_, rfl, ?_, ?_, ?_⟩ <;>
      simp [finalizable_signer_run, hb, fsm_stop, hcat]
  | error e =>
    refine ⟨?_, rfl, ?_, ?_, ?_⟩ <;>
      simp [finalizable_signer_run, hb, fsm_stop, hcat]

/-- C9: the signature verification entry point raises
UnverifiedSignatureError exactly when the external verification of the
document's signature over the uid against the issuing address fails, and
returns nothing (never a false value) when it succeeds. -/
theorem c9_verification_raises_on_mismatch
    (vm : String → String → String → Bool) (uid : String) (cert : SignedCert)
    (issuing_address : String) :
    (vm issuing_address uid cert.signature = false →
      verify_signature vm uid cert issuing_address =
        Except.error (VerifyError.unverifiedSignature
          ("There was a problem with the signature for certificate uid=" ++ uid))) ∧
    (vm issuing_address uid cert.signature = true →
      verify_signature vm uid cert issuing_address = Except.ok ()) := by
  constructor <;> intro h <;> simp [verify_signature, verify_message, h]

/-- Witness for C9 at a rejecting and an accepting external verifier. -/
theorem c9_witness :
    verify_signature vmReject "abc123" ⟨"sig0"⟩ "addr0" =
      Except.error (VerifyError.unverifiedSignature
        ("There was a problem with the signature for certificate uid=" ++ "abc123")) ∧
    verify_signature vmAccept "abc123" ⟨"sig0"⟩ "addr0" = Except.ok () :=
  ⟨(c9_verification_raises_on_mismatch vmReject "abc123" ⟨"sig0"⟩ "addr0").1 rfl,
   (c9_verification_raises_on_mismatch vmAccept "abc123" ⟨"sig0"⟩ "addr0").2 rfl⟩

/-- C10: for every pair of api tokens, the Etherscan connector builds
identical HTTP requests and produces identical outcomes for broadcast_tx,
get_balance and get_address_nonce: the token, evaluated and discarded by the
source, never reaches the URL or body. -/
theorem c10_etherscan_token_independent (oracle : HttpRequest → HttpResponse)
    (pyInt pyIntBase0 : Option String → Except String Int)
    (base_url tx_hex address t1 t2 : String) :
    etherscan_broadcast_tx_request base_url tx_hex t1 =
      etherscan_broadcast_tx_request base_url tx_hex t2 ∧
    etherscan_balance_request base_url address t1 =
      etherscan_balance_request base_url address t2 ∧
    etherscan_nonce_request base_url address t1 =
      etherscan_nonce_request base_url address t2 ∧
    etherscan_broadcast_tx oracle base_url tx_hex t1 =
      etherscan_broadcast_tx oracle base_url tx_hex t2 ∧
    etherscan_get_balance oracle pyInt base_url address t1 =
      etherscan_get_balance oracle pyInt base_url address t2 ∧
    etherscan_get_address_nonce oracle pyIntBase0 base_url address t1 =
      etherscan_get_address_nonce oracle pyIntBase0 base_url address t2 :=
  ⟨rfl, rfl, rfl, rfl, rfl, rfl⟩

end CertIssuer
